import Mathlib

/-!
Verification of the degen-server sentiment pipeline core.

Shallow embedding of:
- `src/services/tweetScraper.ts`  (content fetcher: cache-aside fetch/search,
  credential login retry loop, follower-count graceful degradation)
- `src/services/tweetAnalyzer.ts` (scorer: batched analysis, per-item cache,
  credibility math, significance filter)
- `src/clients/sentimentClient.ts` (orchestrator: single-flight job processing,
  keyword-search working set)

Modelling conventions:
- JS `number` engagement counters are `Nat` (they are counts); score arithmetic
  is over `ℝ` (the credibility math uses `Math.log10`); oracle-assigned scores
  are `ℚ` (they arrive as JSON decimal literals).
- Optional JS fields are `Option _`; the destructuring defaults
  (`likes = 0`, `text = ''`, ...) appear as `Option.getD` at the use sites,
  exactly where the source destructures.
- Redis is a typed key/value store with absolute-expiry entries
  (`setex key ttl v` at time `now` stores expiry `now + ttl`);
  `JSON.stringify`/`JSON.parse` round-trips are the identity.
- Async code is modelled by explicit state passing; a `Promise.all` over a
  batch is its left-to-right sequencing, and a rejection of any member
  rejects the whole batch, as `Promise.all` does.
- Live network calls (twitter search, openai chat completion) are parameters;
  each operation additionally returns the number of live calls it performed.
-/

/-- A tweet's poll, only its presence is ever inspected by the scoring code. -/
structure Poll where
  options : List String
deriving Repr

/-- A photo attachment; only list lengths are inspected by the scoring code. -/
structure Photo where
  url : String
deriving Repr

/-- A video attachment; only list lengths are inspected by the scoring code. -/
structure Video where
  url : String
deriving Repr

/-- The `Tweet` record of `agent-twitter-client` as consumed by this codebase.
Thread members are referenced by id (the source only reads `thread.length`). -/
structure Tweet where
  id : String
  text : Option String := none
  likes : Option Nat := none
  retweets : Option Nat := none
  replies : Option Nat := none
  bookmarkCount : Option Nat := none
  views : Option Nat := none
  hashtags : Option (List String) := none
  urls : Option (List String) := none
  mentions : Option (List String) := none
  sensitiveContent : Option Bool := none
  poll : Option Poll := none
  photos : Option (List Photo) := none
  videos : Option (List Video) := none
  isRetweet : Option Bool := none
  isQuoted : Option Bool := none
  isReply : Option Bool := none
  isSelfThread : Option Bool := none
  isPin : Option Bool := none
  thread : Option (List String) := none
deriving Repr

/-- The `sentiment` values of the oracle's fixed response schema. -/
inductive Sentiment where
  | positive
  | negative
  | neutral
deriving Repr, DecidableEq

/-- The structured JSON body the classification oracle returns
(`sentiment`, `score`, `topics`, `summary`). -/
structure OracleAnalysis where
  sentiment : Sentiment
  score : ℚ
  topics : List String
  summary : String
deriving Repr

/-- A `ScoringError`: an oracle call failing, or `JSON.parse` throwing on a
malformed classification response. -/
inductive ScoringError where
  | oracleError (msg : String)
  | malformedJSON (raw : String)
deriving Repr, DecidableEq

/-- A `FetchError`: a network failure of a live content-source call. -/
inductive FetchError where
  | networkError (msg : String)
deriving Repr, DecidableEq

/-- A typed view of the redis cache: key, value, absolute expiry time. -/
def Cache (α : Type) : Type := List (String × α × Nat)

/-- Model of `redis.get` at time `now`: first entry for the key, if unexpired. -/
def cacheGet {α : Type} (c : Cache α) (key : String) (now : Nat) : Option α :=
  match c.find? (fun e => e.1 == key) with
  | some e => if now < e.2.2 then some e.2.1 else none
  | none => none

/-- Model of `redis.setex key ttl v` at time `now`: the new entry shadows older ones. -/
def cacheSetex {α : Type} (c : Cache α) (now : Nat) (key : String) (ttl : Nat)
    (v : α) : Cache α :=
  (key, v, now + ttl) :: c

namespace TweetScraper

/-- The constant `CACHE_EXPIRY = 600` (10 minutes), the scraper's TTL for every key. -/
def CACHE_EXPIRY : Nat := 600

/-- The cache key `tweets:${username}:${count}` of `getTweets`. -/
def tweetsKey (username : String) (count : Nat) : String :=
  "tweets:" ++ username ++ ":" ++ toString count

/-- The cache key `search:${query}:${count}:${searchMode}` of `searchTweets`. -/
def searchKey (query : String) (count searchMode : Nat) : String :=
  "search:" ++ query ++ ":" ++ toString count ++ ":" ++ toString searchMode

/-- The cache key `follower_count:${userId}` of `getFollowerCount`. -/
def followerCountKey (userId : String) : String :=
  "follower_count:" ++ userId

/-- Model of `TweetScraper.getTweets`: cache-aside; on a miss the scraper's async
iterator is drained into an array (`live username count`), cached under
`tweets:${username}:${count}` for `CACHE_EXPIRY`, and returned.
The third component counts live fetches performed. -/
def getTweets (live : String → Nat → List Tweet) (c : Cache (List Tweet))
    (now : Nat) (username : String) (count : Nat) :
    List Tweet × Cache (List Tweet) × Nat :=
  let cacheKey := tweetsKey username count
  match cacheGet c cacheKey now with
  | some cachedTweets => (cachedTweets, c, 0)
  | none =>
    let tweets := live username count
    (tweets, cacheSetex c now cacheKey CACHE_EXPIRY tweets, 1)

/-- Model of `TweetScraper.searchTweets(query, count, searchMode = 1)`: cache-aside
under `search:${query}:${count}:${searchMode}` with TTL `CACHE_EXPIRY`. -/
def searchTweets (live : String → Nat → Nat → List Tweet)
    (c : Cache (List Tweet)) (now : Nat) (query : String) (count : Nat)
    (searchMode : Nat := 1) : List Tweet × Cache (List Tweet) × Nat :=
  let cacheKey := searchKey query count searchMode
  match cacheGet c cacheKey now with
  | some cachedTweets => (cachedTweets, c, 0)
  | none =>
    let tweets := live query count searchMode
    (tweets, cacheSetex c now cacheKey CACHE_EXPIRY tweets, 1)

/-- Model of `TweetScraper.getTrends`: cache-aside under the key `trends`. -/
def getTrends (live : List String) (c : Cache (List String)) (now : Nat) :
    List String × Cache (List String) × Nat :=
  let cacheKey := "trends"
  match cacheGet c cacheKey now with
  | some cachedTrends => (cachedTrends, c, 0)
  | none =>
    (live, cacheSetex c now cacheKey CACHE_EXPIRY live, 1)

/-- A follower profile as read by `getFollowerCount`; only `followersCount`
is inspected (`firstResult.value.followersCount || 0`). -/
structure Profile where
  followersCount : Option Nat
deriving Repr

/-- Model of `TweetScraper.getFollowerCount(userId)`: cache-aside under
`follower_count:${userId}`; the live path takes the first element of the
followers iterator (`none` models `done` / missing value) and degrades a
thrown network error to the value `0` without caching it. -/
def getFollowerCount (live : String → Except FetchError (Option Profile))
    (c : Cache Nat) (now : Nat) (userId : String) : Nat × Cache Nat × Nat :=
  let cacheKey := followerCountKey userId
  match cacheGet c cacheKey now with
  | some cachedCount => (cachedCount, c, 0)
  | none =>
    match live userId with
    | .error _ => (0, c, 1)
    | .ok firstResult =>
      let followerCount :=
        match firstResult with
        | some p => p.followersCount.getD 0
        | none => 0
      (followerCount, cacheSetex c now cacheKey CACHE_EXPIRY followerCount, 1)

/-- The constant `MAX_LOGIN_RETRIES = 3` in `TweetScraper.initialize`. -/
def MAX_LOGIN_RETRIES : Nat := 3

/-- Outcome of one `scraper.login(...)` call followed by the
`scraper.isLoggedIn()` probe in the credential branch of `initialize`:
the login call throws, or it resolves and the probe validates the session,
or it resolves but the probe reports the session invalid. -/
inductive LoginOutcome where
  | throws
  | okLoggedIn
  | okNotLoggedIn
deriving Repr, DecidableEq

/-- Result of the credential login `while` loop of `initialize`. -/
inductive InitOutcome where
  | loggedIn
  | authFailedAfterMax
  | noMethod
deriving Repr, DecidableEq

/-- The credential `while (loginRetries < MAX_LOGIN_RETRIES)` loop of
`TweetScraper.initialize`, fuel-indexed (`none` = the loop is still running
after `fuel` iterations). `oracle i` is the outcome of the `i`-th
login-plus-probe call; `loginRetries` is incremented only in the `catch`
branch, i.e. only when the login call throws; the recorded backoff delay
before the next attempt is `5000 * loginRetries` ms. -/
def credentialLoginLoop (oracle : Nat → LoginOutcome) :
    Nat → Nat → Nat → List Nat → Option (InitOutcome × List Nat)
  | 0, _, _, _ => none
  | fuel + 1, callIdx, loginRetries, delays =>
    if loginRetries < MAX_LOGIN_RETRIES then
      match oracle callIdx with
      | .okLoggedIn => some (.loggedIn, delays)
      | .okNotLoggedIn =>
        credentialLoginLoop oracle fuel (callIdx + 1) loginRetries delays
      | .throws =>
        let retries' := loginRetries + 1
        if retries' = MAX_LOGIN_RETRIES then some (.authFailedAfterMax, delays)
        else
          credentialLoginLoop oracle fuel (callIdx + 1) retries'
            (delays ++ [5000 * retries'])
    else some (.noMethod, delays)

end TweetScraper

/-- JS `text.split(/\s+/)` on the character list of `text`: maximal nonempty
whitespace runs are separators; pieces between, before and after them are
kept, including empty ones, so the empty string splits to one empty piece. -/
def jsSplitWs : List Char → List (List Char)
  | [] => [[]]
  | c :: cs =>
    let r := jsSplitWs cs
    if c.isWhitespace then
      match cs with
      | c2 :: _ => if c2.isWhitespace then r else [] :: r
      | [] => [] :: r
    else
      match r with
      | h :: t => (c :: h) :: t
      | [] => [[c]]

/-- The word count `text.split(/\s+/).length` in `calculateContentQualityScore`. -/
def wordCount (text : String) : Nat :=
  (jsSplitWs text.data).length

namespace TweetAnalyzer

/-- Model of `Math.log10` (the credibility math normalizes on a log scale). -/
noncomputable def log10 (x : ℝ) : ℝ := Real.logb 10 x

/-- The fixed `credibilityWeights` configuration of `TweetAnalyzer`. -/
structure CredibilityWeights where
  topicRelevance : ℝ
  engagement : ℝ
  communitySignals : ℝ
  contentPatterns : ℝ

/-- The object `credibilityWeights = { topicRelevance: 0.35, engagement: 0.25,
communitySignals: 0.25, contentPatterns: 0.15 }`. -/
noncomputable def credibilityWeights : CredibilityWeights :=
  { topicRelevance := 0.35
    engagement := 0.25
    communitySignals := 0.25
    contentPatterns := 0.15 }

/-- Model of `TweetAnalyzer.calculateEngagementScore`: log-normalized likes, retweets,
replies and bookmarks plus the engagement rate when views are available.
Note: the weighted sum is returned as-is, with no clamp. -/
noncomputable def calculateEngagementScore (t : Tweet) : ℝ :=
  let likes := t.likes.getD 0
  let retweets := t.retweets.getD 0
  let replies := t.replies.getD 0
  let bookmarkCount := t.bookmarkCount.getD 0
  let views := t.views.getD 0
  let normalizedLikes := log10 ((likes : ℝ) + 1) / log10 100000
  let normalizedRetweets := log10 ((retweets : ℝ) + 1) / log10 100000
  let normalizedReplies := log10 ((replies : ℝ) + 1) / log10 10000
  let normalizedBookmarks := log10 ((bookmarkCount : ℝ) + 1) / log10 10000
  let engagementRate :=
    if 0 < views then min (((likes + retweets + replies : ℕ) : ℝ) / (views : ℝ)) 1
    else 0
  normalizedLikes * 0.3 +
  normalizedRetweets * 0.3 +
  normalizedReplies * 0.2 +
  normalizedBookmarks * 0.1 +
  engagementRate * 0.1

/-- Model of `TweetAnalyzer.calculateContentQualityScore`: rewards word count up to a
cap, penalizes hashtag and mention density, rewards urls and a poll,
penalizes sensitive content; the total is clamped to `[0,1]`. -/
noncomputable def calculateContentQualityScore (t : Tweet) : ℝ :=
  let text := t.text.getD ""
  let hashtags := t.hashtags.getD []
  let urls := t.urls.getD []
  let mentions := t.mentions.getD []
  let sensitiveContent := t.sensitiveContent.getD false
  let wc := wordCount text
  let score := min ((wc : ℝ) / 50) 0.3
  let hashtagRatio := (hashtags.length : ℝ) / (wc : ℝ)
  let score := score + (if hashtagRatio ≤ 0.2 then (0.15 : ℝ) else -0.1)
  let score := score + (if 0 < urls.length then (0.15 : ℝ) else 0)
  let mentionRatio := (mentions.length : ℝ) / (wc : ℝ)
  let score := score + (if mentionRatio ≤ 0.1 then (0.1 : ℝ) else -0.1)
  let score := score + (if t.poll.isSome then (0.15 : ℝ) else 0)
  let score := score - (if sensitiveContent then (0.2 : ℝ) else 0)
  max 0 (min score 1)

/-- Model of `TweetAnalyzer.calculateUserBehaviorScore`: starts at the neutral 0.5,
rewards original authorship, quoting, self-threads (with a capped per-item
bonus), pinned status and replies; clamped to `[0,1]`. -/
noncomputable def calculateUserBehaviorScore (t : Tweet) : ℝ :=
  let isRetweet := t.isRetweet.getD false
  let isQuoted := t.isQuoted.getD false
  let isReply := t.isReply.getD false
  let isSelfThread := t.isSelfThread.getD false
  let isPin := t.isPin.getD false
  let thread := t.thread.getD []
  let score := (0.5 : ℝ)
  let score := score + (if isRetweet then (-0.1 : ℝ) else 0.2)
  let score := score + (if isQuoted then (0.1 : ℝ) else 0)
  let score :=
    if isSelfThread then score + 0.15 + min ((thread.length : ℝ) * 0.05) 0.15
    else score
  let score := score + (if isPin then (0.1 : ℝ) else 0)
  let score := score + (if isReply then (0.1 : ℝ) else 0)
  max 0 (min score 1)

/-- Model of `TweetAnalyzer.calculateMediaRichnessScore`: rewards photos/videos,
rewards links/polls only when no media exists, penalizes more than four
attached media; clamped to `[0,1]`. -/
noncomputable def calculateMediaRichnessScore (t : Tweet) : ℝ :=
  let photos := t.photos.getD []
  let videos := t.videos.getD []
  let urls := t.urls.getD []
  let score := (if 0 < photos.length then (0.3 : ℝ) else 0)
  let score := score + (if 0 < videos.length then (0.4 : ℝ) else 0)
  let score :=
    if photos.length = 0 ∧ videos.length = 0 then
      if 0 < urls.length ∨ t.poll.isSome then score + 0.2 else score
    else score
  let totalMedia := photos.length + videos.length
  let score := if 4 < totalMedia then score - 0.2 else score
  max 0 (min score 1)

/-- Model of `TweetAnalyzer.calculateCredibilityScore`: the weighted sum of the four
sub-scores, capped at 1 by `Math.min`. -/
noncomputable def calculateCredibilityScore (t : Tweet) : ℝ :=
  min
    (calculateEngagementScore t * credibilityWeights.engagement +
     calculateContentQualityScore t * credibilityWeights.contentPatterns +
     calculateUserBehaviorScore t * credibilityWeights.communitySignals +
     calculateMediaRichnessScore t * credibilityWeights.topicRelevance)
    1

/-- The `analysis` attached to a tweet: the oracle's fields plus the locally
computed `credibilityScore`. -/
structure TweetAnalysis where
  sentiment : Sentiment
  score : ℚ
  topics : List String
  summary : String
  credibilityScore : ℝ

/-- An `AnalyzedTweet`: a tweet together with its `analysis`. -/
structure AnalyzedTweet where
  tweet : Tweet
  analysis : TweetAnalysis

/-- The constant `BATCH_SIZE = 10`. -/
def BATCH_SIZE : Nat := 10

/-- The constant `CACHE_EXPIRY = 3600` (1 hour), the per-item analysis TTL. -/
def CACHE_EXPIRY : Nat := 3600

/-- The cache key `tweet_analysis:${tweet.id}` of `getCachedAnalysis`. -/
def analysisKey (t : Tweet) : String :=
  "tweet_analysis:" ++ t.id

/-- Model of `TweetAnalyzer.analyzeTweet`: one structured oracle call for the tweet
(`oracle` already covers `JSON.parse` of the response, so a malformed body is
an `error`), then the local credibility computation is attached. -/
noncomputable def analyzeTweet (oracle : Tweet → Except ScoringError OracleAnalysis)
    (t : Tweet) : Except ScoringError AnalyzedTweet :=
  match oracle t with
  | .error e => .error e
  | .ok analysis =>
    .ok ⟨t, ⟨analysis.sentiment, analysis.score, analysis.topics,
      analysis.summary, calculateCredibilityScore t⟩⟩

/-- Model of `TweetAnalyzer.getCachedAnalysis`: cache-aside per tweet id; on a miss the
fresh analysis is stored under `tweet_analysis:${id}` for `CACHE_EXPIRY`.
The `Nat` counts oracle calls performed. -/
noncomputable def getCachedAnalysis
    (oracle : Tweet → Except ScoringError OracleAnalysis)
    (c : Cache TweetAnalysis) (now : Nat) (t : Tweet) :
    Except ScoringError (AnalyzedTweet × Cache TweetAnalysis × Nat) :=
  let cacheKey := analysisKey t
  match cacheGet c cacheKey now with
  | some cached => .ok (⟨t, cached⟩, c, 0)
  | none =>
    match analyzeTweet oracle t with
    | .error e => .error e
    | .ok analyzed =>
      .ok (analyzed, cacheSetex c now cacheKey CACHE_EXPIRY analyzed.analysis, 1)

/-- Model of `Promise.all(batch.map(tweet => this.getCachedAnalysis(tweet)))` for one
batch: every item is analyzed, in order, threading the shared cache; any
single rejection rejects the whole batch, as `Promise.all` does. -/
noncomputable def analyzeBatch (oracle : Tweet → Except ScoringError OracleAnalysis)
    (now : Nat) :
    Cache TweetAnalysis → List Tweet →
    Except ScoringError (List AnalyzedTweet × Cache TweetAnalysis)
  | c, [] => .ok ([], c)
  | c, t :: ts =>
    match getCachedAnalysis oracle c now t with
    | .error e => .error e
    | .ok (a, c', _) =>
      match analyzeBatch oracle now c' ts with
      | .error e => .error e
      | .ok (as, c'') => .ok (a :: as, c'')

/-- The batch loop of `TweetAnalyzer.analyzeTweets`: slices of `BATCH_SIZE`
processed in order (the inter-batch `setTimeout` delay does not affect
values), results concatenated. -/
noncomputable def analyzeTweetsGo
    (oracle : Tweet → Except ScoringError OracleAnalysis) (now : Nat) :
    Cache TweetAnalysis → List Tweet →
    Except ScoringError (List AnalyzedTweet × Cache TweetAnalysis)
  | c, [] => .ok ([], c)
  | c, t :: ts =>
    match analyzeBatch oracle now c ((t :: ts).take BATCH_SIZE) with
    | .error e => .error e
    | .ok (as, c') =>
      match analyzeTweetsGo oracle now c' ((t :: ts).drop BATCH_SIZE) with
      | .error e => .error e
      | .ok (rest, c'') => .ok (as ++ rest, c'')
termination_by _ ts => ts.length
decreasing_by
  simp only [List.length_drop, List.length_cons, BATCH_SIZE]
  omega

/-- Model of `TweetAnalyzer.analyzeTweets`: the batch loop followed by
`results.filter(tweet => tweet.analysis.score > 0.3)`. -/
noncomputable def analyzeTweets
    (oracle : Tweet → Except ScoringError OracleAnalysis)
    (c : Cache TweetAnalysis) (now : Nat) (tweets : List Tweet) :
    Except ScoringError (List AnalyzedTweet × Cache TweetAnalysis) :=
  match analyzeTweetsGo oracle now c tweets with
  | .error e => .error e
  | .ok (results, c') =>
    .ok (results.filter (fun tweet => (0.3 : ℚ) < tweet.analysis.score), c')

end TweetAnalyzer

namespace SentimentClient

/-- The list `keywordGroups.primary` in `runMainLoop`. -/
def keywordsPrimary : List String := ["new token", "presale", "stealth launch"]

/-- The list `keywordGroups.context` in `runMainLoop`. -/
def keywordsContext : List String := ["crypto", "gem"]

/-- The per-search promises of `runMainLoop`:
`keywordGroups.primary.flatMap(primary => keywordGroups.context.map(context =>
this.tweetScraper.searchTweets(primary + " " + context, 3)))`, with the
scraper call abstracted as `searchFn query count`. -/
def searchResults (searchFn : String → Nat → List Tweet) : List (List Tweet) :=
  (keywordsPrimary.map (fun primary =>
    keywordsContext.map (fun context =>
      searchFn (primary ++ " " ++ context) 3))).flatten

/-- The working set `allTweets` of `runMainLoop`: `searchResults.flat()` pushed into one
working set, which is handed to the analyzer unchanged. -/
def mainLoopWorkingSet (searchFn : String → Nat → List Tweet) : List Tweet :=
  (searchResults searchFn).flatten

/-- The state of the orchestrator's job processing: the in-memory
`isRunning` flag, the number of `runMainLoop` executions currently in
flight, and the number of jobs waiting in the analysis queue. -/
structure OrchState where
  isRunning : Bool
  inFlight : Nat
  queued : Nat
deriving Repr, DecidableEq

/-- After `setupQueue`: the queue was emptied, the processor installed, and
exactly the one initial job added; nothing runs yet. -/
def initState : OrchState := ⟨false, 0, 1⟩

/-- The two observable events of the processor: a queued job being delivered
to the processor (`fire`), and an in-flight `runMainLoop` finishing. -/
inductive OrchEvent where
  | fire
  | finish
deriving Repr, DecidableEq

/-- Step relation of `setupQueue`'s processor.

* `fireSkip`: the processor fires while `isRunning` is set; the guard logs
  and returns, so the trigger is consumed, no execution starts, and nothing
  is re-queued.
* `fireRun`: the processor fires while `isRunning` is clear; the flag check
  and `this.isRunning = true` are one synchronous JS segment (no `await`
  between them), so the transition is atomic and one execution starts.
* `finishRun`: an execution completes (`runMainLoop` returning or throwing
  into the swallowing `catch`); the `finally` clears the flag and adds the
  next delayed job. -/
inductive Step : OrchState → OrchEvent → OrchState → Prop
  | fireSkip (f q : Nat) :
      Step ⟨true, f, q + 1⟩ .fire ⟨true, f, q⟩
  | fireRun (f q : Nat) :
      Step ⟨false, f, q + 1⟩ .fire ⟨true, f + 1, q⟩
  | finishRun (r : Bool) (f q : Nat) :
      Step ⟨r, f + 1, q⟩ .finish ⟨false, f, q + 1⟩

/-- States reachable from `initState` under `Step`. -/
inductive Reachable : OrchState → Prop
  | init : Reachable initState
  | step {s s' : OrchState} {e : OrchEvent} :
      Reachable s → Step s e s' → Reachable s'

end SentimentClient

/-! ## Sample inputs used by witnesses and counterexamples -/

/-- A sample tweet. -/
def tA : Tweet := { id := "a1" }

/-- A sample tweet. -/
def tB : Tweet := { id := "b2" }

/-- A sample tweet. -/
def tC : Tweet := { id := "c3" }

/-! ## C10: the word count of the content-quality sub-score is never zero -/

/-- JS `split` never returns an empty array. -/
theorem jsSplitWs_ne_nil (l : List Char) : jsSplitWs l ≠ [] := by
  induction l with
  | nil => simp [jsSplitWs]
  | cons c cs ih =>
    show (let r := jsSplitWs cs
      if c.isWhitespace then
        match cs with
        | c2 :: _ => if c2.isWhitespace then r else [] :: r
        | [] => [] :: r
      else
        match r with
        | h :: t => (c :: h) :: t
        | [] => [[c]]) ≠ []
    by_cases hc : c.isWhitespace
    · simp only [hc, if_true]
      cases cs with
      | nil => simp
      | cons c2 cs2 =>
        by_cases h2 : c2.isWhitespace
        · simpa [h2] using ih
        · simp [h2]
    · simp only [hc, if_false]
      cases hr : jsSplitWs cs with
      | nil => exact absurd hr ih
      | cons h t => simp

/-- Claim C10: for every tweet text, including the empty string, the word count
computed by `text.split(/\s+/).length` in `calculateContentQualityScore` is at
least 1, so the hashtag-ratio and mention-ratio divisions never divide by zero
and the scoring function is total over all `Tweet` inputs. -/
theorem wordCount_pos (text : String) :
    1 ≤ wordCount text ∧ ((wordCount text : ℝ) ≠ 0) := by
  have h : 1 ≤ wordCount text := by
    have := jsSplitWs_ne_nil text.data
    unfold wordCount
    exact List.length_pos.mpr this
  exact ⟨h, Nat.cast_ne_zero.mpr (by omega)⟩

/-! ## C5: the credential login loop of `initialize` -/

/-- An oracle under which every `scraper.login` call resolves without
throwing, but the `isLoggedIn()` probe never validates the session. -/
def alwaysUnvalidated : Nat → TweetScraper.LoginOutcome :=
  fun _ => .okNotLoggedIn

/-- Claim C5 (code bug): `initialize` does not terminate for every oracle
behavior. When every credential login call resolves without throwing but the
`isLoggedIn()` probe keeps failing, the `while (loginRetries <
MAX_LOGIN_RETRIES)` loop never increments `loginRetries` (that happens only in
the `catch` branch) and retries forever: for every fuel bound the loop is
still running, contradicting the claim that exactly three attempts are made
and initialize then fails permanently. -/
theorem credentialLoginLoop_diverges_on_unvalidated_login
    (fuel callIdx : Nat) :
    TweetScraper.credentialLoginLoop alwaysUnvalidated fuel callIdx 0 [] =
      none := by
  induction fuel generalizing callIdx with
  | zero => rfl
  | succ n ih =>
    rw [TweetScraper.credentialLoginLoop]
    simpa [alwaysUnvalidated, TweetScraper.MAX_LOGIN_RETRIES] using ih (callIdx + 1)

/-- For contrast: when every login attempt throws, the loop terminates after
exactly `MAX_LOGIN_RETRIES = 3` attempts with the permanent authentication
error, and the recorded backoff delays grow linearly (5000 ms, then 10000 ms;
the third failure throws before any wait). -/
theorem credentialLoginLoop_all_throws :
    TweetScraper.credentialLoginLoop (fun _ => .throws) 3 0 0 [] =
      some (.authFailedAfterMax, [5000, 10000]) := by
  rfl

/-! ## C3: single-flight guard of the orchestrator -/

/-- Inductive invariant of the processor: at most one execution in flight,
and none when the `isRunning` flag is clear. -/
def OrchInv (s : SentimentClient.OrchState) : Prop :=
  s.inFlight ≤ 1 ∧ (s.isRunning = false → s.inFlight = 0)

/-- The invariant holds in every reachable state. -/
theorem reachable_orchInv {s : SentimentClient.OrchState}
    (h : SentimentClient.Reachable s) : OrchInv s := by
  induction h with
  | init => exact ⟨by simp [SentimentClient.initState], by simp [SentimentClient.initState]⟩
  | step _ hstep ih =>
    cases hstep with
    | fireSkip f q => exact ⟨ih.1, by simp⟩
    | fireRun f q =>
      have hf : f = 0 := ih.2 rfl
      subst hf
      exact ⟨le_refl 1, by simp⟩
    | finishRun r f q =>
      have h1 : f + 1 ≤ 1 := ih.1
      exact ⟨show f ≤ 1 by omega, fun _ => show f = 0 by omega⟩

/-- Claim C3: (i) in every reachable state of the orchestrator's step relation
at most one execution of `runMainLoop` is in flight; (ii) whenever the job
processor fires in a state whose in-memory `isRunning` flag is set, the
trigger is dropped: no second execution starts (`inFlight` unchanged, the
flag stays set) and the consumed trigger is not re-queued (`queued`
strictly decreases by one). -/
theorem orchestrator_single_flight :
    (∀ s : SentimentClient.OrchState, SentimentClient.Reachable s →
      s.inFlight ≤ 1) ∧
    (∀ s s' : SentimentClient.OrchState, s.isRunning = true →
      SentimentClient.Step s .fire s' →
      s'.inFlight = s.inFlight ∧ s'.isRunning = true ∧
        s'.queued + 1 = s.queued) := by
  constructor
  · intro s hs
    exact (reachable_orchInv hs).1
  · intro s s' hrun hstep
    cases hstep with
    | fireSkip f q => exact ⟨rfl, rfl, rfl⟩
    | fireRun f q => simp at hrun

/-- Witness for C3 at concrete states: `⟨true, 1, 0⟩` is reachable (initial
state, then one `fire`), and a `fire` delivered in `⟨true, 1, 1⟩` steps to
`⟨true, 1, 0⟩` — dropped, not queued, no second execution. -/
theorem orchestrator_single_flight_witness :
    (⟨true, 1, 0⟩ : SentimentClient.OrchState).inFlight ≤ 1 ∧
    ((⟨true, 1, 0⟩ : SentimentClient.OrchState).inFlight =
        (⟨true, 1, 1⟩ : SentimentClient.OrchState).inFlight ∧
      (⟨true, 1, 0⟩ : SentimentClient.OrchState).isRunning = true ∧
      (⟨true, 1, 0⟩ : SentimentClient.OrchState).queued + 1 =
        (⟨true, 1, 1⟩ : SentimentClient.OrchState).queued) := by
  refine ⟨orchestrator_single_flight.1 _ ?_,
    orchestrator_single_flight.2 ⟨true, 1, 1⟩ ⟨true, 1, 0⟩ rfl
      (SentimentClient.Step.fireSkip 1 0)⟩
  exact SentimentClient.Reachable.step SentimentClient.Reachable.init
    (SentimentClient.Step.fireRun 0 0)

/-! ## C6: the working set of `runMainLoop` is not deduplicated -/

/-- A search stub under which every keyword query returns the same tweet. -/
def searchDup : String → Nat → List Tweet :=
  fun _ _ => [{ id := "dup" }]

/-- Claim C6 (counterexample): when the same tweet id is returned by more than
one of the six keyword searches, it appears more than once in the working set
`allTweets` handed to the analyzer — `runMainLoop` performs no
deduplication. -/
theorem workingSet_duplicate_ids :
    1 < (SentimentClient.mainLoopWorkingSet searchDup).countP
      (fun t => t.id == "dup") := by
  decide

/-- Claim C6 (amended): the working set handed to the Scorer is the plain
in-order concatenation of the six keyword-search result lists, with
duplicates preserved: the multiplicity of any tweet predicate over
`allTweets` is the sum of its multiplicities over the individual search
results, so an id fetched by `k` searches appears `k` times. -/
theorem workingSet_concatenation :
    (∀ searchFn : String → Nat → List Tweet,
      SentimentClient.mainLoopWorkingSet searchFn =
        searchFn "new token crypto" 3 ++ searchFn "new token gem" 3 ++
        searchFn "presale crypto" 3 ++ searchFn "presale gem" 3 ++
        searchFn "stealth launch crypto" 3 ++ searchFn "stealth launch gem" 3) ∧
    (∀ (searchFn : String → Nat → List Tweet) (p : Tweet → Bool),
      (SentimentClient.mainLoopWorkingSet searchFn).countP p =
        ((SentimentClient.searchResults searchFn).map (List.countP p)).sum) := by
  constructor
  · intro searchFn
    simp [SentimentClient.mainLoopWorkingSet, SentimentClient.searchResults,
      SentimentClient.keywordsPrimary, SentimentClient.keywordsContext,
      List.append_assoc]
  · intro searchFn p
    exact List.countP_flatten p (SentimentClient.searchResults searchFn)

/-! ## C9: graceful degradation of `getFollowerCount` -/

/-- Claim C9: `getFollowerCount` (i) returns `0` (and caches nothing) when the
cache misses and the live follower fetch fails with a network error, instead
of propagating the error; (ii) returns the cached count on an unexpired cache
hit; (iii) returns the fetched profile's follower count when the live fetch
succeeds. All counts are naturals, hence non-negative. -/
theorem getFollowerCount_graceful :
    (∀ (live : String → Except FetchError (Option TweetScraper.Profile))
        (c : Cache Nat) (now : Nat) (uid : String) (e : FetchError),
      cacheGet c (TweetScraper.followerCountKey uid) now = none →
      live uid = .error e →
      TweetScraper.getFollowerCount live c now uid = (0, c, 1)) ∧
    (∀ (live : String → Except FetchError (Option TweetScraper.Profile))
        (c : Cache Nat) (now : Nat) (uid : String) (n : Nat),
      cacheGet c (TweetScraper.followerCountKey uid) now = some n →
      TweetScraper.getFollowerCount live c now uid = (n, c, 0)) ∧
    (∀ (live : String → Except FetchError (Option TweetScraper.Profile))
        (c : Cache Nat) (now : Nat) (uid : String) (p : TweetScraper.Profile),
      cacheGet c (TweetScraper.followerCountKey uid) now = none →
      live uid = .ok (some p) →
      (TweetScraper.getFollowerCount live c now uid).1 =
        p.followersCount.getD 0) := by
  refine ⟨?_, ?_, ?_⟩
  · intro live c now uid e hmiss herr
    simp [TweetScraper.getFollowerCount, hmiss, herr]
  · intro live c now uid n hhit
    simp [TweetScraper.getFollowerCount, hhit]
  · intro live c now uid p hmiss hok
    simp [TweetScraper.getFollowerCount, hmiss, hok]

/-- A live follower fetch that fails with a network error. -/
def liveFollowersFail : String → Except FetchError (Option TweetScraper.Profile) :=
  fun _ => .error (.networkError "timeout")

/-- A live follower fetch that returns a profile with 42 followers. -/
def liveFollowersOk : String → Except FetchError (Option TweetScraper.Profile) :=
  fun _ => .ok (some ⟨some 42⟩)

/-- Witness for C9: concrete error path, cache-hit path, and success path. -/
theorem getFollowerCount_graceful_witness :
    TweetScraper.getFollowerCount liveFollowersFail [] 0 "u1" = (0, [], 1) ∧
    TweetScraper.getFollowerCount liveFollowersFail
      [(TweetScraper.followerCountKey "u1", 7, 600)] 0 "u1" =
      (7, [(TweetScraper.followerCountKey "u1", 7, 600)], 0) ∧
    (TweetScraper.getFollowerCount liveFollowersOk [] 0 "u1").1 = 42 :=
  ⟨getFollowerCount_graceful.1 liveFollowersFail [] 0 "u1"
      (.networkError "timeout") rfl rfl,
   getFollowerCount_graceful.2.1 liveFollowersFail
      [(TweetScraper.followerCountKey "u1", 7, 600)] 0 "u1" 7 (by decide),
   getFollowerCount_graceful.2.2 liveFollowersOk [] 0 "u1" ⟨some 42⟩ rfl rfl⟩

/-! ## C4: cache-aside semantics of the fetch/score operations -/

/-- Claim C4: each fetch/score operation is cache-aside. For `getTweets`,
`searchTweets` and `getTrends`: an unexpired cache entry under the computed
key is returned as-is with zero live calls, and on a miss the fully drained
live result is returned, after being stored under that key with the fixed
600-second TTL, with exactly one live call. For `getCachedAnalysis`: an
unexpired entry under `tweet_analysis:${id}` is returned with zero oracle
calls, and on a miss the fresh analysis is returned and its `analysis` part
stored under that key with the 3600-second TTL, with exactly one oracle
call. -/
theorem cache_aside_hit_and_miss :
    (∀ (live : String → Nat → List Tweet) (c : Cache (List Tweet)) (now : Nat)
        (username : String) (count : Nat),
      (∀ ts, cacheGet c (TweetScraper.tweetsKey username count) now = some ts →
        TweetScraper.getTweets live c now username count = (ts, c, 0)) ∧
      (cacheGet c (TweetScraper.tweetsKey username count) now = none →
        TweetScraper.getTweets live c now username count =
          (live username count,
           cacheSetex c now (TweetScraper.tweetsKey username count) 600
             (live username count), 1))) ∧
    (∀ (live : String → Nat → Nat → List Tweet) (c : Cache (List Tweet))
        (now : Nat) (query : String) (count searchMode : Nat),
      (∀ ts, cacheGet c (TweetScraper.searchKey query count searchMode) now =
          some ts →
        TweetScraper.searchTweets live c now query count searchMode =
          (ts, c, 0)) ∧
      (cacheGet c (TweetScraper.searchKey query count searchMode) now = none →
        TweetScraper.searchTweets live c now query count searchMode =
          (live query count searchMode,
           cacheSetex c now (TweetScraper.searchKey query count searchMode) 600
             (live query count searchMode), 1))) ∧
    (∀ (live : List String) (c : Cache (List String)) (now : Nat),
      (∀ trends, cacheGet c "trends" now = some trends →
        TweetScraper.getTrends live c now = (trends, c, 0)) ∧
      (cacheGet c "trends" now = none →
        TweetScraper.getTrends live c now =
          (live, cacheSetex c now "trends" 600 live, 1))) ∧
    (∀ (oracle : Tweet → Except ScoringError OracleAnalysis)
        (c : Cache TweetAnalyzer.TweetAnalysis) (now : Nat) (t : Tweet),
      (∀ a, cacheGet c (TweetAnalyzer.analysisKey t) now = some a →
        TweetAnalyzer.getCachedAnalysis oracle c now t = .ok (⟨t, a⟩, c, 0)) ∧
      (∀ analyzed, cacheGet c (TweetAnalyzer.analysisKey t) now = none →
        TweetAnalyzer.analyzeTweet oracle t = .ok analyzed →
        TweetAnalyzer.getCachedAnalysis oracle c now t =
          .ok (analyzed,
            cacheSetex c now (TweetAnalyzer.analysisKey t) 3600
              analyzed.analysis, 1))) := by
  refine ⟨fun live c now username count => ⟨?_, ?_⟩,
    fun live c now query count searchMode => ⟨?_, ?_⟩,
    fun live c now => ⟨?_, ?_⟩,
    fun oracle c now t => ⟨?_, ?_⟩⟩
  · intro ts h
    simp [TweetScraper.getTweets, h]
  · intro h
    simp [TweetScraper.getTweets, h, TweetScraper.CACHE_EXPIRY]
  · intro ts h
    simp [TweetScraper.searchTweets, h]
  · intro h
    simp [TweetScraper.searchTweets, h, TweetScraper.CACHE_EXPIRY]
  · intro trends h
    simp [TweetScraper.getTrends, h]
  · intro h
    simp [TweetScraper.getTrends, h, TweetScraper.CACHE_EXPIRY]
  · intro a h
    simp [TweetAnalyzer.getCachedAnalysis, h]
  · intro analyzed h hok
    simp [TweetAnalyzer.getCachedAnalysis, h, hok, TweetAnalyzer.CACHE_EXPIRY]

/-- A live search stub returning three fixed tweets for every query. -/
def liveSearch₀ : String → Nat → Nat → List Tweet :=
  fun _ _ _ => [tA, tB, tC]

/-- A live user-timeline stub. -/
def liveTweets₀ : String → Nat → List Tweet :=
  fun _ _ => [tB]

/-- An oracle that classifies every tweet the same way. -/
def oracleConst : Tweet → Except ScoringError OracleAnalysis :=
  fun _ => .ok ⟨.positive, 0.8, ["presale"], "ok"⟩

/-- Witness for C4: concrete hit and miss cases of all four operations. -/
theorem cache_aside_hit_and_miss_witness :
    TweetScraper.getTweets liveTweets₀
      [(TweetScraper.tweetsKey "alice" 2, [tA], 5)] 0 "alice" 2 =
      ([tA], [(TweetScraper.tweetsKey "alice" 2, [tA], 5)], 0) ∧
    TweetScraper.getTweets liveTweets₀ [] 0 "alice" 2 =
      (liveTweets₀ "alice" 2,
       cacheSetex [] 0 (TweetScraper.tweetsKey "alice" 2) 600
         (liveTweets₀ "alice" 2), 1) ∧
    TweetScraper.searchTweets liveSearch₀
      [(TweetScraper.searchKey "q" 3 1, [tC], 5)] 0 "q" 3 1 =
      ([tC], [(TweetScraper.searchKey "q" 3 1, [tC], 5)], 0) ∧
    TweetScraper.searchTweets liveSearch₀ [] 0 "q" 3 1 =
      (liveSearch₀ "q" 3 1,
       cacheSetex [] 0 (TweetScraper.searchKey "q" 3 1) 600
         (liveSearch₀ "q" 3 1), 1) ∧
    TweetScraper.getTrends ["t1"] [("trends", ["t0"], 5)] 0 =
      (["t0"], [("trends", ["t0"], 5)], 0) ∧
    TweetScraper.getTrends ["t1"] [] 0 =
      (["t1"], cacheSetex [] 0 "trends" 600 ["t1"], 1) ∧
    TweetAnalyzer.getCachedAnalysis oracleConst
      [(TweetAnalyzer.analysisKey tA,
        ⟨.neutral, 0.5, [], "cached", 0.5⟩, 5)] 0 tA =
      .ok (⟨tA, ⟨.neutral, 0.5, [], "cached", 0.5⟩⟩,
        [(TweetAnalyzer.analysisKey tA, ⟨.neutral, 0.5, [], "cached", 0.5⟩, 5)],
        0) ∧
    TweetAnalyzer.getCachedAnalysis oracleConst [] 0 tA =
      .ok (⟨tA, ⟨.positive, 0.8, ["presale"], "ok",
          TweetAnalyzer.calculateCredibilityScore tA⟩⟩,
        cacheSetex [] 0 (TweetAnalyzer.analysisKey tA) 3600
          ⟨.positive, 0.8, ["presale"], "ok",
            TweetAnalyzer.calculateCredibilityScore tA⟩, 1) :=
  ⟨(cache_aside_hit_and_miss.1 liveTweets₀ _ 0 "alice" 2).1 [tA] rfl,
   (cache_aside_hit_and_miss.1 liveTweets₀ [] 0 "alice" 2).2 rfl,
   (cache_aside_hit_and_miss.2.1 liveSearch₀ _ 0 "q" 3 1).1 [tC] rfl,
   (cache_aside_hit_and_miss.2.1 liveSearch₀ [] 0 "q" 3 1).2 rfl,
   (cache_aside_hit_and_miss.2.2.1 ["t1"] _ 0).1 ["t0"] rfl,
   (cache_aside_hit_and_miss.2.2.1 ["t1"] [] 0).2 rfl,
   (cache_aside_hit_and_miss.2.2.2 oracleConst _ 0 tA).1 _ rfl,
   (cache_aside_hit_and_miss.2.2.2 oracleConst [] 0 tA).2 _ rfl rfl⟩

/-! ## C8: the `"presale crypto"` search scenario -/

/-- Claim C8 (counterexample): after the first `searchTweets("presale crypto",
3)` call on an empty cache, nothing is stored under the key claimed by the
spec, `search:presale crypto:3`; the items live under
`search:presale crypto:3:1` instead, because the defaulted `searchMode = 1`
is part of the computed key. -/
theorem searchTweets_key_missing_mode_suffix :
    cacheGet (TweetScraper.searchTweets liveSearch₀ [] 0 "presale crypto" 3).2.1
      "search:presale crypto:3" 0 = none ∧
    cacheGet (TweetScraper.searchTweets liveSearch₀ [] 0 "presale crypto" 3).2.1
      "search:presale crypto:3:1" 0 = some [tA, tB, tC] := by
  constructor <;> rfl

/-- Claim C8 (amended): on an empty cache, `searchTweets("presale crypto", 3)`
performs exactly one live search call and stores the resulting items under
the key `search:presale crypto:3:1` with a 600-second TTL; a second call with
the same parameters at any time strictly within the TTL window returns the
same items with zero live calls. -/
theorem searchTweets_presale_crypto_scenario
    (live : String → Nat → Nat → List Tweet) (now now' : Nat)
    (h : now' < now + 600) :
    TweetScraper.searchTweets live [] now "presale crypto" 3 =
      (live "presale crypto" 3 1,
       [(TweetScraper.searchKey "presale crypto" 3 1,
         live "presale crypto" 3 1, now + 600)], 1) ∧
    TweetScraper.searchTweets live
      [(TweetScraper.searchKey "presale crypto" 3 1,
        live "presale crypto" 3 1, now + 600)]
      now' "presale crypto" 3 =
      (live "presale crypto" 3 1,
       [(TweetScraper.searchKey "presale crypto" 3 1,
         live "presale crypto" 3 1, now + 600)], 0) := by
  constructor
  · simp [TweetScraper.searchTweets, cacheGet, cacheSetex,
      TweetScraper.CACHE_EXPIRY]
  · simp [TweetScraper.searchTweets, cacheGet, h]

/-- Witness for C8 at concrete times 0 and 599 (within the TTL window). -/
theorem searchTweets_presale_crypto_scenario_witness :
    (599 < 0 + 600) ∧
    (TweetScraper.searchTweets liveSearch₀ [] 0 "presale crypto" 3 =
      (liveSearch₀ "presale crypto" 3 1,
       [(TweetScraper.searchKey "presale crypto" 3 1,
         liveSearch₀ "presale crypto" 3 1, 0 + 600)], 1) ∧
     TweetScraper.searchTweets liveSearch₀
      [(TweetScraper.searchKey "presale crypto" 3 1,
        liveSearch₀ "presale crypto" 3 1, 0 + 600)]
      599 "presale crypto" 3 =
      (liveSearch₀ "presale crypto" 3 1,
       [(TweetScraper.searchKey "presale crypto" 3 1,
         liveSearch₀ "presale crypto" 3 1, 0 + 600)], 0)) :=
  ⟨by decide,
   searchTweets_presale_crypto_scenario liveSearch₀ 0 599 (by decide)⟩

/-! ## C2: bounds of the credibility score and its sub-scores -/

/-- The identity `log10 (10 ^ n) = n`. -/
theorem log10_pow10 (n : ℕ) : TweetAnalyzer.log10 ((10 : ℝ) ^ n) = n := by
  unfold TweetAnalyzer.log10
  rw [Real.logb_pow, Real.logb_self_eq_one (by norm_num : (1:ℝ) < 10)]
  ring

/-- The likes/retweets normalization base: `log10 100000 = 5`. -/
theorem log10_100000 : TweetAnalyzer.log10 100000 = 5 := by
  rw [show (100000 : ℝ) = (10 : ℝ) ^ (5 : ℕ) by norm_num, log10_pow10]
  norm_num

/-- The replies/bookmarks normalization base: `log10 10000 = 4`. -/
theorem log10_10000 : TweetAnalyzer.log10 10000 = 4 := by
  rw [show (10000 : ℝ) = (10 : ℝ) ^ (4 : ℕ) by norm_num, log10_pow10]
  norm_num

/-- The value `log10 (n + 1)` is non-negative for every natural counter `n`. -/
theorem log10_nat_add_one_nonneg (n : ℕ) :
    0 ≤ TweetAnalyzer.log10 ((n : ℝ) + 1) := by
  unfold TweetAnalyzer.log10
  refine Real.logb_nonneg (by norm_num) ?_
  have : (0 : ℝ) ≤ (n : ℝ) := Nat.cast_nonneg n
  linarith

/-- A `Math.max(0, Math.min(x, 1))` clamp lands in `[0, 1]`. -/
theorem clamp01_mem (x : ℝ) : 0 ≤ max 0 (min x 1) ∧ max 0 (min x 1) ≤ 1 :=
  ⟨le_max_left _ _, max_le zero_le_one (min_le_right _ _)⟩

/-- The engagement sub-score is non-negative (all its summands are). -/
theorem engagementScore_nonneg (t : Tweet) :
    0 ≤ TweetAnalyzer.calculateEngagementScore t := by
  have hL := log10_nat_add_one_nonneg (t.likes.getD 0)
  have hR := log10_nat_add_one_nonneg (t.retweets.getD 0)
  have hRe := log10_nat_add_one_nonneg (t.replies.getD 0)
  have hB := log10_nat_add_one_nonneg (t.bookmarkCount.getD 0)
  simp only [TweetAnalyzer.calculateEngagementScore]
  rw [log10_100000, log10_10000]
  split_ifs with hv
  · have hrate : (0 : ℝ) ≤
        min (((t.likes.getD 0 + t.retweets.getD 0 + t.replies.getD 0 : ℕ) : ℝ) /
          ((t.views.getD 0 : ℕ) : ℝ)) 1 :=
      le_min (div_nonneg (Nat.cast_nonneg _) (Nat.cast_nonneg _)) zero_le_one
    linarith
  · linarith

/-- Claim C2 (counterexample): the engagement sub-score is *not* clamped to
`[0,1]` before weighting — a tweet whose like and retweet counters reach
`10^25 - 1` has an engagement sub-score of 3, and this unclamped value is
what enters the weighted sum in `calculateCredibilityScore`. -/
theorem engagementScore_not_clamped :
    1 < TweetAnalyzer.calculateEngagementScore
      { id := "viral", likes := some (10 ^ 25 - 1),
        retweets := some (10 ^ 25 - 1) } := by
  have hcast : ((10 ^ 25 - 1 : ℕ) : ℝ) + 1 = (10 : ℝ) ^ (25 : ℕ) := by
    rw [Nat.cast_sub (Nat.one_le_pow 25 10 (by norm_num))]
    push_cast
    ring
  have hl : TweetAnalyzer.log10 (((10 ^ 25 - 1 : ℕ) : ℝ) + 1) = 25 := by
    rw [hcast, log10_pow10]
    norm_num
  have h1 : TweetAnalyzer.log10 ((0 : ℝ) + 1) = 0 := by
    unfold TweetAnalyzer.log10
    simp
  simp only [TweetAnalyzer.calculateEngagementScore]
  rw [log10_100000, log10_10000]
  simp only [Option.getD_some, Option.getD_none, Nat.cast_zero]
  rw [hl, h1]
  norm_num

/-- Claim C2 (amended): for every `Tweet` the composite credibility score lies
in `[0,1]`, and the content-quality, behavioral and media-richness sub-scores
are each clamped to `[0,1]` before weighting; the engagement sub-score,
however, is only non-negative — it is *not* clamped (see the counterexample)
and can exceed 1, the composite staying in range only because of the final
`Math.min(..., 1)` and the non-negativity of every summand. -/
theorem credibilityScore_bounds (t : Tweet) :
    (0 ≤ TweetAnalyzer.calculateCredibilityScore t ∧
      TweetAnalyzer.calculateCredibilityScore t ≤ 1) ∧
    (0 ≤ TweetAnalyzer.calculateContentQualityScore t ∧
      TweetAnalyzer.calculateContentQualityScore t ≤ 1) ∧
    (0 ≤ TweetAnalyzer.calculateUserBehaviorScore t ∧
      TweetAnalyzer.calculateUserBehaviorScore t ≤ 1) ∧
    (0 ≤ TweetAnalyzer.calculateMediaRichnessScore t ∧
      TweetAnalyzer.calculateMediaRichnessScore t ≤ 1) ∧
    0 ≤ TweetAnalyzer.calculateEngagementScore t := by
  have hq : 0 ≤ TweetAnalyzer.calculateContentQualityScore t ∧
      TweetAnalyzer.calculateContentQualityScore t ≤ 1 := clamp01_mem _
  have hu : 0 ≤ TweetAnalyzer.calculateUserBehaviorScore t ∧
      TweetAnalyzer.calculateUserBehaviorScore t ≤ 1 := clamp01_mem _
  have hm : 0 ≤ TweetAnalyzer.calculateMediaRichnessScore t ∧
      TweetAnalyzer.calculateMediaRichnessScore t ≤ 1 := clamp01_mem _
  have he := engagementScore_nonneg t
  refine ⟨⟨?_, ?_⟩, hq, hu, hm, he⟩
  · simp only [TweetAnalyzer.calculateCredibilityScore,
      TweetAnalyzer.credibilityWeights]
    refine le_min ?_ zero_le_one
    have h1 := hq.1
    have h2 := hu.1
    have h3 := hm.1
    nlinarith
  · simp only [TweetAnalyzer.calculateCredibilityScore]
    exact min_le_right _ _

/-! ## C1 and C7: batch processing of `analyzeTweets` -/

/-- Sequential per-item analysis distributes over list append: analyzing
`l₁ ++ l₂` is analyzing `l₁`, then `l₂` under the evolved cache, appending
results; the first error aborts everything after it. -/
theorem analyzeBatch_append (oracle : Tweet → Except ScoringError OracleAnalysis)
    (now : Nat) (l₁ l₂ : List Tweet) : ∀ c : Cache TweetAnalyzer.TweetAnalysis,
    TweetAnalyzer.analyzeBatch oracle now c (l₁ ++ l₂) =
      match TweetAnalyzer.analyzeBatch oracle now c l₁ with
      | .error e => .error e
      | .ok (as, c') =>
        match TweetAnalyzer.analyzeBatch oracle now c' l₂ with
        | .error e => .error e
        | .ok (bs, c'') => .ok (as ++ bs, c'') := by
  induction l₁ with
  | nil =>
    intro c
    simp only [List.nil_append, TweetAnalyzer.analyzeBatch]
    cases h : TweetAnalyzer.analyzeBatch oracle now c l₂ with
    | error e => rfl
    | ok res => simp
  | cons t ts ih =>
    intro c
    simp only [List.cons_append, TweetAnalyzer.analyzeBatch]
    cases h : TweetAnalyzer.getCachedAnalysis oracle c now t with
    | error e => rfl
    | ok res =>
      obtain ⟨a, c', k⟩ := res
      dsimp only
      simp only [List.append_eq]
      rw [ih c']
      cases h2 : TweetAnalyzer.analyzeBatch oracle now c' ts with
      | error e => rfl
      | ok res2 =>
        obtain ⟨as, c''⟩ := res2
        dsimp only
        cases h3 : TweetAnalyzer.analyzeBatch oracle now c'' l₂ with
        | error e => rfl
        | ok res3 =>
          obtain ⟨bs, c'''⟩ := res3
          simp

/-- Slicing the input into `BATCH_SIZE` chunks does not change the result:
the batch loop equals plain sequential per-item analysis. -/
theorem analyzeTweetsGo_eq_batch (oracle : Tweet → Except ScoringError OracleAnalysis)
    (now : Nat) (c : Cache TweetAnalyzer.TweetAnalysis) (ts : List Tweet) :
    TweetAnalyzer.analyzeTweetsGo oracle now c ts =
      TweetAnalyzer.analyzeBatch oracle now c ts := by
  suffices H : ∀ (n : Nat) (c : Cache TweetAnalyzer.TweetAnalysis)
      (ts : List Tweet), ts.length ≤ n →
      TweetAnalyzer.analyzeTweetsGo oracle now c ts =
        TweetAnalyzer.analyzeBatch oracle now c ts by
    exact H ts.length c ts le_rfl
  intro n
  induction n with
  | zero =>
    intro c ts h
    have : ts = [] := List.eq_nil_of_length_eq_zero (Nat.le_zero.mp h)
    subst this
    rw [TweetAnalyzer.analyzeTweetsGo, TweetAnalyzer.analyzeBatch]
  | succ n ih =>
    intro c ts h
    cases ts with
    | nil => rw [TweetAnalyzer.analyzeTweetsGo, TweetAnalyzer.analyzeBatch]
    | cons t ts' =>
      rw [TweetAnalyzer.analyzeTweetsGo]
      conv_rhs =>
        rw [← List.take_append_drop TweetAnalyzer.BATCH_SIZE (t :: ts'),
          analyzeBatch_append oracle now _ _ c]
      have hlen : ((t :: ts').drop TweetAnalyzer.BATCH_SIZE).length ≤ n := by
        simp only [List.length_drop, List.length_cons] at h ⊢
        simp only [TweetAnalyzer.BATCH_SIZE]
        omega
      cases hb : TweetAnalyzer.analyzeBatch oracle now c
          ((t :: ts').take TweetAnalyzer.BATCH_SIZE) with
      | error e => rfl
      | ok res =>
        obtain ⟨as, c'⟩ := res
        simp only []
        rw [ih c' _ hlen]

/-- Claim C7: whatever `analyzeTweets` returns is exactly the in-order
per-item analysis of its input filtered by `analysis.score > 0.3`: items at
or below the threshold are excluded, the rest keep input order, and an error
propagates unchanged. -/
theorem analyzeTweets_filters_by_score
    (oracle : Tweet → Except ScoringError OracleAnalysis)
    (c : Cache TweetAnalyzer.TweetAnalysis) (now : Nat) (tweets : List Tweet) :
    TweetAnalyzer.analyzeTweets oracle c now tweets =
      match TweetAnalyzer.analyzeBatch oracle now c tweets with
      | .error e => .error e
      | .ok (results, c') =>
        .ok (results.filter (fun tw => (0.3 : ℚ) < tw.analysis.score), c') := by
  unfold TweetAnalyzer.analyzeTweets
  rw [analyzeTweetsGo_eq_batch]

/-- The two tweets of the C1 counterexample. -/
def tX : Tweet := { id := "X" }

/-- The two tweets of the C1 counterexample. -/
def tY : Tweet := { id := "Y" }

/-- An oracle returning malformed JSON for the tweet with id `X` and a valid
classification for every other tweet. -/
def oracleFailsOnX : Tweet → Except ScoringError OracleAnalysis :=
  fun t =>
    if t.id == "X" then .error (.malformedJSON "not json")
    else .ok ⟨.positive, 0.8, ["presale"], "ok"⟩

/-- Claim C1 (counterexample): one malformed oracle response in a batch aborts
the whole `analyzeTweets` call. With tweets `[Y, X]` in a single batch and an
oracle that fails only on `X`, the call returns the scoring error itself —
`Y`, though scored successfully, receives no `AnalyzedItem` result, so it is
false that every other item in the batch still receives a valid result. -/
theorem analyzeTweets_single_failure_aborts_batch :
    TweetAnalyzer.analyzeTweets oracleFailsOnX [] 0 [tY, tX] =
      .error (.malformedJSON "not json") := by
  unfold TweetAnalyzer.analyzeTweets
  rw [analyzeTweetsGo_eq_batch]
  rfl

/-- Claim C1 (amended): a failure to score a single item does abort the batch:
whenever the items before `t` analyze successfully and scoring `t` fails,
`analyzeTweets` on `pre ++ t :: post` returns that error — no item of the
call (not even a successfully scored one) receives a result. -/
theorem analyzeTweets_error_propagates
    (oracle : Tweet → Except ScoringError OracleAnalysis)
    (c : Cache TweetAnalyzer.TweetAnalysis) (now : Nat)
    (pre post : List Tweet) (t : Tweet)
    (as : List TweetAnalyzer.AnalyzedTweet)
    (c' : Cache TweetAnalyzer.TweetAnalysis) (e : ScoringError)
    (hpre : TweetAnalyzer.analyzeBatch oracle now c pre = .ok (as, c'))
    (ht : TweetAnalyzer.getCachedAnalysis oracle c' now t = .error e) :
    TweetAnalyzer.analyzeTweets oracle c now (pre ++ t :: post) = .error e := by
  unfold TweetAnalyzer.analyzeTweets
  rw [analyzeTweetsGo_eq_batch, analyzeBatch_append oracle now pre (t :: post) c,
    hpre]
  simp only [TweetAnalyzer.analyzeBatch, ht]

/-- Witness for C1 at a concrete input: `[Y]` analyzes successfully, scoring
`X` under the evolved cache fails, and `analyzeTweets` on `[Y] ++ X :: []`
returns the error. -/
theorem analyzeTweets_error_propagates_witness :
    TweetAnalyzer.analyzeBatch oracleFailsOnX 0 [] [tY] =
      .ok ([⟨tY, ⟨.positive, 0.8, ["presale"], "ok",
          TweetAnalyzer.calculateCredibilityScore tY⟩⟩],
        cacheSetex [] 0 (TweetAnalyzer.analysisKey tY) TweetAnalyzer.CACHE_EXPIRY
          ⟨.positive, 0.8, ["presale"], "ok",
            TweetAnalyzer.calculateCredibilityScore tY⟩) ∧
    TweetAnalyzer.getCachedAnalysis oracleFailsOnX
      (cacheSetex [] 0 (TweetAnalyzer.analysisKey tY) TweetAnalyzer.CACHE_EXPIRY
        ⟨.positive, 0.8, ["presale"], "ok",
          TweetAnalyzer.calculateCredibilityScore tY⟩) 0 tX =
      .error (.malformedJSON "not json") ∧
    TweetAnalyzer.analyzeTweets oracleFailsOnX [] 0 ([tY] ++ tX :: []) =
      .error (.malformedJSON "not json") :=
  ⟨rfl, rfl,
   analyzeTweets_error_propagates oracleFailsOnX [] 0 [tY] [] tX _ _ _ rfl rfl⟩
